import Mathlib

/-!
Verification of the Shilp Python SDK's typed request/response contract layer.

The development shallowly embeds the SDK's data model (`shilp/models.py`) and
the request-building / response-decoding operations of `shilp/client.py` and
`shilp/discovery_client.py` as executable Lean definitions, and proves the
specified contracts about them.  Python dictionaries destined for the wire are
modelled as association lists of JSON values (key order = insertion order),
Python `None` as `Option.none`, and Python exceptions as the error side of
`Except`.
-/

namespace ShilpSdk

/-- JSON values as produced by the SDK's serialization layer (a shallow model
of the Python objects handed to the `requests` JSON encoder). Objects keep
their key insertion order, which is significant for the wire-shape claims. -/
inductive Json where
  | null
  | bool (b : Bool)
  | num (n : Int)
  | str (s : String)
  | arr (xs : List Json)
  | obj (kvs : List (String × Json))

/-- An association list standing for a Python dict about to be JSON-encoded. -/
abbrev JsonObj := List (String × Json)

/-- `kvs` has an entry for key `k` (Python `k in d`). -/
def hasKey {α : Type} (kvs : List (String × α)) (k : String) : Bool :=
  kvs.any (fun kv => kv.1 == k)

/-- `d.get(k)` (Python dict lookup returning `None` when absent). -/
def jsonGet (kvs : JsonObj) (k : String) : Option Json :=
  kvs.lookup k

/-- The entries contributed to a request dict by one
`if x is not None: json_data[k] = x` line: nothing when the caller supplied no
value, the single keyed entry otherwise. -/
def optEntry (k : String) : Option Json → JsonObj
  | none => []
  | some v => [(k, v)]

/-- Python exceptions raised by the SDK paths under study.  `valueError` models
`ValueError` (the SDK's ValidationError), `typeError` and `attributeError` the
builtin exceptions of the same names, `apiError` models the
`requests.HTTPError` raised on status ≥ 400 (carrying the status code and the
raw response text), and `jsonDecodeError` a body that is not valid JSON. -/
inductive PyError where
  | valueError (msg : String)
  | typeError (msg : String)
  | attributeError (msg : String)
  | apiError (status : Nat) (body : String)
  | keyError (k : String)
  | jsonDecodeError
deriving DecidableEq, Repr

/-- `models.FilterOp` (IntEnum). -/
inductive FilterOp where
  | EQUALS | NOT_EQUALS | GREATER_THAN | GREATER_THAN_OR_EQUAL
  | LESS_THAN | LESS_THAN_OR_EQUAL | IN | NOT_IN
deriving DecidableEq, Repr

/-- Wire encoding of `FilterOp` (the IntEnum values). -/
def FilterOp.toInt : FilterOp → Int
  | .EQUALS => 0
  | .NOT_EQUALS => 1
  | .GREATER_THAN => 2
  | .GREATER_THAN_OR_EQUAL => 3
  | .LESS_THAN => 4
  | .LESS_THAN_OR_EQUAL => 5
  | .IN => 6
  | .NOT_IN => 7

/-- `str(op)` for a `FilterOp` member, as interpolated into error messages. -/
def FilterOp.pyName : FilterOp → String
  | .EQUALS => "FilterOp.EQUALS"
  | .NOT_EQUALS => "FilterOp.NOT_EQUALS"
  | .GREATER_THAN => "FilterOp.GREATER_THAN"
  | .GREATER_THAN_OR_EQUAL => "FilterOp.GREATER_THAN_OR_EQUAL"
  | .LESS_THAN => "FilterOp.LESS_THAN"
  | .LESS_THAN_OR_EQUAL => "FilterOp.LESS_THAN_OR_EQUAL"
  | .IN => "FilterOp.IN"
  | .NOT_IN => "FilterOp.NOT_IN"

/-- `models.SortOrder` (IntEnum). -/
inductive SortOrder where
  | ASCENDING | DESCENDING
deriving DecidableEq, Repr

/-- Wire encoding of `SortOrder`. -/
def SortOrder.toInt : SortOrder → Int
  | .ASCENDING => 0
  | .DESCENDING => 1

/-- `models.StorageBackendType` (IntEnum with values -1, 1, 2). -/
inductive StorageBackendType where
  | DOES_NOT_EXIST | FILE | S3
deriving DecidableEq, Repr

/-- Wire encoding of `StorageBackendType`. -/
def StorageBackendType.toInt : StorageBackendType → Int
  | .DOES_NOT_EXIST => -1
  | .FILE => 1
  | .S3 => 2

/-- The IntEnum constructor `StorageBackendType(n)`: `none` models the
`ValueError` Python raises for an integer outside {-1, 1, 2}. -/
def StorageBackendType.ofInt? (n : Int) : Option StorageBackendType :=
  if n = -1 then some .DOES_NOT_EXIST
  else if n = 1 then some .FILE
  else if n = 2 then some .S3
  else none

/-- `models.ReplicaType` (IntEnum). -/
inductive ReplicaType where
  | READ_REPLICA | WRITE_REPLICA | SINGLE_NODE
deriving DecidableEq, Repr

/-- `models.FilterExpression`.  Python `Any` filter operands are carried as
`Json` values; `None` for `value`/`values` is `Option.none`. -/
structure FilterExpression where
  «attribute» : String
  op : FilterOp
  value : Option Json := none
  values : Option (List Json) := none

/-- `FilterExpression.validate` (models.py lines 205-215), translated branch by
branch; Python's raised `ValueError`s become the error side of `Except`.
Python truthiness: `not self.attribute` ⇔ the string is empty,
`not self.values or len(self.values) == 0` ⇔ `values` is `None` or `[]`. -/
def FilterExpression.validate (f : FilterExpression) : Except PyError Unit :=
  if f.attribute = "" then
    .error (.valueError "attribute name cannot be empty")
  else if f.op = .IN ∨ f.op = .NOT_IN then
    match f.values with
    | none => .error (.valueError "IN/NOT IN operations require at least one value")
    | some [] => .error (.valueError "IN/NOT IN operations require at least one value")
    | some (_ :: _) => .ok ()
  else
    match f.value with
    | none => .error (.valueError ("value cannot be None for operation " ++ f.op.pyName))
    | some _ => .ok ()

/-- The wire entry `{"attribute": ..., "op": ..., "value": ..., "values": ...}`
built for one filter inside `CompoundFilter.to_dict` (models.py lines 228-233).
The `op` IntEnum serializes as its integer; a `None` scalar/list serializes as
JSON null. -/
def filterWireEntryKvs (f : FilterExpression) : JsonObj :=
  [("attribute", .str f.attribute),
   ("op", .num f.op.toInt),
   ("value", match f.value with | none => .null | some v => v),
   ("values", match f.values with | none => .null | some vs => .arr vs)]

/-- `models.CompoundFilter` (default: `field(default_factory=list)`). -/
structure CompoundFilter where
  and_filters : Option (List FilterExpression) := some []

/-- `CompoundFilter.to_dict` (models.py lines 223-236).  Python truthiness of
`self.and_filters`: `None` and `[]` are both falsy, so the `"and"` key is
added only for a non-empty list. -/
def CompoundFilter.to_dict (cf : CompoundFilter) : Json :=
  match cf.and_filters with
  | none => .obj []
  | some [] => .obj []
  | some fs => .obj [("and", .arr (fs.map (fun f => .obj (filterWireEntryKvs f))))]

/-- `models.SortExpression`. -/
structure SortExpression where
  «attribute» : String
  order : SortOrder

/-- The wire entry `{"attribute": ..., "order": ...}` built for one sort inside
`CompoundSort.to_dict` (models.py line 263). -/
def sortWireEntryKvs (s : SortExpression) : JsonObj :=
  [("attribute", .str s.attribute), ("order", .num s.order.toInt)]

/-- `models.CompoundSort`. -/
structure CompoundSort where
  sorts : Option (List SortExpression) := some []

/-- `CompoundSort.to_dict` (models.py lines 258-266). -/
def CompoundSort.to_dict (cs : CompoundSort) : Json :=
  match cs.sorts with
  | none => .obj []
  | some [] => .obj []
  | some ss => .obj [("sorts", .arr (ss.map (fun s => .obj (sortWireEntryKvs s))))]

/-- An HTTP response as seen by the SDK: the status code, the raw body text
(`response.text`; `response.content` is non-empty iff the text is), and the
result of parsing the body as JSON (`none` models a `json.JSONDecodeError`
from `response.json()`). -/
structure HttpResponse where
  status_code : Nat
  text : String
  jsonBody : Option Json

/-- `Client._request` (client.py lines 58-96) and the identical
`DiscoveryClient._request` (discovery_client.py lines 32-70), from the point
the response is in hand: status ≥ 400 raises `requests.HTTPError` carrying the
status code and the raw body text; otherwise the body is JSON-decoded, with an
empty body short-circuiting to the empty dict `{}`. -/
def requestExchange (resp : HttpResponse) : Except PyError Json :=
  if resp.status_code ≥ 400 then
    .error (.apiError resp.status_code resp.text)
  else if resp.text = "" then
    .ok (.obj [])
  else
    match resp.jsonBody with
    | some j => .ok j
    | none => .error .jsonDecodeError

/-- The HTTP request an SDK operation hands to `Client._request`: the method,
endpoint path, optional JSON body and optional query parameters. -/
structure HttpRequest where
  method : String
  path : String
  json_data : Option Json := none
  params : List (String × String) := []

/-- What a client operation does before the transport takes over: either it
reaches `_request` with a concrete HTTP request, or it raises locally and no
request is ever sent. -/
inductive ClientAction where
  | send (req : HttpRequest)
  | raiseErr (e : PyError)

/-- `ClientAction.send`? -/
def ClientAction.isSend : ClientAction → Bool
  | .send _ => true
  | .raiseErr _ => false

/-- The JSON body `Client.update_replica_lsn` builds (client.py lines 806-810). -/
def heartbeatBody (collection replica_id : String) (lsn : Int) : Json :=
  .obj [("collection", .str collection),
        ("replica_id", .str replica_id),
        ("lsn", .num lsn)]

/-- `Client.update_replica_lsn` (client.py lines 792-812).  The `Client` object
holds only `base_url`, `timeout` and `session` (client.py lines 54-56): it
keeps no per-replica LSN bookkeeping, performs no validation, and
unconditionally posts the heartbeat body — so the action is a pure function of
the three arguments alone. -/
def update_replica_lsn (collection replica_id : String) (lsn : Int) : ClientAction :=
  .send { method := "POST"
          path := "/api/oplog/v1/heartbeat"
          json_data := some (heartbeatBody collection replica_id lsn) }

/-- A sequence of heartbeat calls on one client for one collection/replica.
Since the client is stateless between calls, each call's action depends only
on its own `lsn` argument. -/
def heartbeatTrace (collection replica_id : String) (lsns : List Int) : List ClientAction :=
  lsns.map (update_replica_lsn collection replica_id)

/-- The `is_read`/`is_write` capability flags computed by
`DiscoveryClient.register_shilp_service` (discovery_client.py lines 141-142)
and `unregister_shilp_service` (lines 169-170):
`is_read = replica_type == READ_REPLICA or replica_type == SINGLE_NODE`,
`is_write = replica_type == WRITE_REPLICA or replica_type == SINGLE_NODE`. -/
def capabilityFlags (replica_type : ReplicaType) : Bool × Bool :=
  ((replica_type == .READ_REPLICA || replica_type == .SINGLE_NODE),
   (replica_type == .WRITE_REPLICA || replica_type == .SINGLE_NODE))

/-- The JSON body shared by `register_shilp_service` (discovery_client.py
lines 144-150) and `unregister_shilp_service` (lines 172-178). -/
def shilpServiceBody (account_id address service_id : String)
    (replica_type : ReplicaType) : Json :=
  .obj [("account_id", .str account_id),
        ("address", .str address),
        ("id", .str service_id),
        ("is_read", .bool (capabilityFlags replica_type).1),
        ("is_write", .bool (capabilityFlags replica_type).2)]

/-- `DiscoveryClient.register_shilp_service` (discovery_client.py lines
126-152), up to the transport call. -/
def register_shilp_service (account_id address service_id : String)
    (replica_type : ReplicaType) : HttpRequest :=
  { method := "POST"
    path := "/api/v1/discovery/shilp/register"
    json_data := some (shilpServiceBody account_id address service_id replica_type) }

/-- `DiscoveryClient.unregister_shilp_service` (discovery_client.py lines
154-180), up to the transport call. -/
def unregister_shilp_service (account_id address service_id : String)
    (replica_type : ReplicaType) : HttpRequest :=
  { method := "DELETE"
    path := "/api/v1/discovery/shilp/unregister"
    json_data := some (shilpServiceBody account_id address service_id replica_type) }

/-- Python truthiness of a JSON-representable value: `None`, `False`, `0`,
`""`, `[]` and `{}` are falsy. -/
def Json.pyFalsy : Json → Bool
  | .null => true
  | .bool b => !b
  | .num n => n == 0
  | .str s => s == ""
  | .arr xs => xs.isEmpty
  | .obj kvs => kvs.isEmpty

/-- Python truthiness of an `Optional` value. -/
def pyFalsyOpt : Option Json → Bool
  | none => true
  | some j => j.pyFalsy

/-- `models.AttrType` (IntEnum). -/
inductive AttrType where
  | INT64 | FLOAT64 | STRING | BOOL
deriving DecidableEq, Repr

/-- Wire encoding of `AttrType`. -/
def AttrType.toInt : AttrType → Int
  | .INT64 => 0
  | .FLOAT64 => 1
  | .STRING => 2
  | .BOOL => 3

/-- `models.SearchRequest` (models.py lines 269-279).  The dataclass declares
`collection, query, fields, limit, weights, max_distance, filters, sort` and
nothing else: in particular it declares NO `vector_query` field, even though
`Client.search_data` reads `request.vector_query`.  Python still lets a caller
set such an attribute on an instance after construction, so the embedding
carries `vector_query_attr : Option (Option Json)`: `none` means the attribute
was never set (reading it raises `AttributeError`), `some vq` means the caller
assigned `vq` to it dynamically.  A plain `SearchRequest(...)` construction
always has `vector_query_attr = none`.  Floats and embedding vectors are
carried opaquely as `Json` values. -/
structure SearchRequest where
  collection : String
  query : String
  fields : Option (List String) := none
  limit : Option Int := none
  weights : Option JsonObj := none
  max_distance : Option Json := none
  filters : Option CompoundFilter := none
  sort : Option CompoundSort := none
  vector_query_attr : Option (Option Json) := none

/-- Reading `request.vector_query` on a `SearchRequest`: raises
`AttributeError` unless the caller set the attribute dynamically. -/
def SearchRequest.readVectorQuery (request : SearchRequest) : Except PyError (Option Json) :=
  match request.vector_query_attr with
  | none => .error (.attributeError "SearchRequest object has no attribute vector_query")
  | some vq => .ok vq

/-- `Client.search_data` (client.py lines 477-515), up to the transport call.
Line 490: empty collection raises `ValueError`.  Line 492:
`if not request.query and not request.vector_query` — the right operand is
evaluated only when `query` is empty (Python short-circuit), and reading
`request.vector_query` raises `AttributeError` when the attribute is absent.
Lines 495-512 build the body dict; line 511 reads `request.vector_query`
unconditionally. -/
def search_data (request : SearchRequest) : Except PyError HttpRequest := do
  if request.collection = "" then
    throw (.valueError "collection name cannot be empty")
  if request.query = "" then
    let vq ← request.readVectorQuery
    if pyFalsyOpt vq then
      throw (.valueError "both vector_query and query cannot be empty")
  let json_data : JsonObj :=
    [("collection", .str request.collection), ("query", .str request.query)]
  let json_data := json_data ++ optEntry "fields"
    (request.fields.map (fun fs => .arr (fs.map .str)))
  let json_data := json_data ++ optEntry "limit" (request.limit.map .num)
  let json_data := json_data ++ optEntry "weights" (request.weights.map .obj)
  let json_data := json_data ++ optEntry "max_distance" request.max_distance
  let json_data := json_data ++ optEntry "filters"
    (request.filters.map CompoundFilter.to_dict)
  let json_data := json_data ++ optEntry "sort"
    (request.sort.map CompoundSort.to_dict)
  let vq ← request.readVectorQuery
  let json_data := json_data ++ optEntry "vector_query" vq
  pure { method := "POST", path := "/api/data/v1/search",
         json_data := some (.obj json_data) }

/-- `models.AddCollectionRequest` (models.py lines 104-110).  The dataclass
declares exactly these five fields — there is no `enable_pq` field. -/
structure AddCollectionRequest where
  name : String
  no_reference_storage : Bool := false
  has_metadata_storage : Bool := false
  storage_type : Option StorageBackendType := none
  reference_storage_type : Option StorageBackendType := none

/-- `Client.add_collection` (client.py lines 221-243), up to the transport
call.  Lines 231-239 build the body; line 240 `if request.enable_pq:` then
reads an attribute the `AddCollectionRequest` dataclass does not define, so
every call raises `AttributeError` before any request is sent. -/
def add_collection (request : AddCollectionRequest) : Except PyError HttpRequest :=
  let json_data : JsonObj :=
    [("name", .str request.name),
     ("no_reference_storage", .bool request.no_reference_storage),
     ("has_metadata_storage", .bool request.has_metadata_storage)]
  let json_data := json_data ++ optEntry "storage_type"
    (request.storage_type.map (fun t => .num t.toInt))
  let json_data := json_data ++ optEntry "reference_storage_type"
    (request.reference_storage_type.map (fun t => .num t.toInt))
  let _ := json_data
  .error (.attributeError "AddCollectionRequest object has no attribute enable_pq")

/-- `models.InsertRecordRequest` (models.py lines 124-134). -/
structure InsertRecordRequest where
  collection : String
  record : JsonObj
  expiry : Option Int := none
  id : Option String := none
  metadata_fields : Option (List (String × AttrType)) := none
  embedding_provider : Option String := none
  fields : Option (List String) := none
  keyword_fields : Option (List String) := none
  model : Option String := none

/-- `Client.insert_record` (client.py lines 395-425), up to the transport
call: mandatory `collection`/`record` keys, then one
`if x is not None: json_data[k] = x` per optional field, in source order. -/
def insert_record (request : InsertRecordRequest) : HttpRequest :=
  let json_data : JsonObj :=
    [("collection", .str request.collection), ("record", .obj request.record)]
  let json_data := json_data ++ optEntry "expiry" (request.expiry.map .num)
  let json_data := json_data ++ optEntry "id" (request.id.map .str)
  let json_data := json_data ++ optEntry "metadata_fields"
    (request.metadata_fields.map (fun m => .obj (m.map (fun kv => (kv.1, .num kv.2.toInt)))))
  let json_data := json_data ++ optEntry "embedding_provider"
    (request.embedding_provider.map .str)
  let json_data := json_data ++ optEntry "fields"
    (request.fields.map (fun fs => .arr (fs.map .str)))
  let json_data := json_data ++ optEntry "keyword_fields"
    (request.keyword_fields.map (fun fs => .arr (fs.map .str)))
  let json_data := json_data ++ optEntry "model" (request.model.map .str)
  { method := "POST", path := "/api/collections/v1/record",
    json_data := some (.obj json_data) }

/-- The role-to-capability mapping as the specification words it —
`SINGLE_NODE ↦ (read, write) = (true, true)`, `READ_REPLICA ↦ (true, false)`,
`WRITE_REPLICA ↦ (false, true)` — written from the spec's words alone, to be
compared with the source-derived `capabilityFlags`. -/
def specCapabilityFlags : ReplicaType → Bool × Bool
  | .SINGLE_NODE => (true, true)
  | .READ_REPLICA => (true, false)
  | .WRITE_REPLICA => (false, true)

/-- `c[k]` on a response dict: `KeyError` when the key is absent. -/
def requireKey (c : JsonObj) (k : String) : Except PyError Json :=
  match jsonGet c k with
  | some v => .ok v
  | none => .error (.keyError k)

/-- `StorageBackendType(c.get(k, 0))` as evaluated in
`Client.list_collections` (client.py lines 202-203): look the key up with
integer default `0`, then run the IntEnum constructor, which raises
`ValueError` for any value outside {-1, 1, 2} — note in particular that the
default `0` itself is NOT a member of the enum. -/
def decodeStorageTypeField (c : JsonObj) (k : String) : Except PyError StorageBackendType :=
  match (jsonGet c k).getD (.num 0) with
  | .num n =>
    match StorageBackendType.ofInt? n with
    | some t => .ok t
    | none => .error (.valueError (toString n ++ " is not a valid StorageBackendType"))
  | _ => .error (.valueError "is not a valid StorageBackendType")

/-- `models.Collection` (models.py lines 71-82).  Dynamically-typed payload
fields are carried as `Json`; the dataclass declares exactly these nine fields
— there is no `is_pq_enabled` field. -/
structure Collection where
  name : Json
  is_loaded : Json
  fields : Json
  searchable_fields : Json
  metadata : Option Json := none
  has_metadata_enabled : Json := .bool false
  no_reference_storage : Json := .bool false
  storage_type : StorageBackendType := .FILE
  reference_storage_type : StorageBackendType := .FILE

/-- The per-item conversion inside `Client.list_collections` (client.py lines
194-205), with Python's left-to-right evaluation of the keyword-argument
expressions before the constructor call: the four required `c[...]` lookups,
the defaulted `c.get(...)` lookups, the two `StorageBackendType(...)`
conversions, and finally the `Collection(...)` call itself — which raises
`TypeError`, because line 204 passes `is_pq_enabled=` and the `Collection`
dataclass has no such parameter.  No item can ever decode successfully. -/
def decodeCollectionItem (c : JsonObj) : Except PyError Collection := do
  let _name ← requireKey c "name"
  let _is_loaded ← requireKey c "is_loaded"
  let _fields ← requireKey c "fields"
  let _searchable_fields ← requireKey c "searchable_fields"
  let _metadata := jsonGet c "metadata"
  let _has_metadata_enabled := (jsonGet c "has_metadata_enabled").getD (.bool false)
  let _no_reference_storage := (jsonGet c "no_reference_storage").getD (.bool false)
  let _storage_type ← decodeStorageTypeField c "storage_type"
  let _reference_storage_type ← decodeStorageTypeField c "reference_storage_type"
  let _is_pq_enabled := (jsonGet c "is_pq_enabled").getD (.bool false)
  throw (.typeError "Collection.init got an unexpected keyword argument is_pq_enabled")

/-- `models.MetadataSupportInfo` (models.py lines 86-91), dynamically-typed
payload fields carried as `Json`. -/
structure MetadataSupportInfo where
  support_metadata : Json
  name : Json
  type : StorageBackendType
  is_default : Json

/-- The per-descriptor conversion inside `Client.list_collections` (client.py
lines 211-216): four explicit field lookups, with
`StorageBackendType(m["type"])` raising `ValueError` on an unrecognized
integer. -/
def decodeMetadataSupportInfo (m : JsonObj) : Except PyError MetadataSupportInfo := do
  let support_metadata ← requireKey m "support_metadata"
  let name ← requireKey m "name"
  let tyRaw ← requireKey m "type"
  let type ← match tyRaw with
    | .num n =>
      match StorageBackendType.ofInt? n with
      | some t => Except.ok t
      | none => Except.error (.valueError (toString n ++ " is not a valid StorageBackendType"))
    | _ => Except.error (.valueError "is not a valid StorageBackendType")
  let is_default ← requireKey m "is_default"
  pure { support_metadata, name, type, is_default }

/-- `models.Replica` (models.py lines 523-528), dynamically-typed fields
carried as `Json` (the dataclass annotations are not enforced at runtime). -/
structure Replica where
  id : Json
  address : Json
  is_healthy : Json
  is_syncing : Json

/-- `Replica(**kvs)`: Python raises `TypeError` for an unexpected keyword and
for a missing required argument; the dataclass has the four required
parameters `id, address, is_healthy, is_syncing` and no defaults — so in
particular `Replica(**{})` raises `TypeError`. -/
def decodeReplica (kvs : JsonObj) : Except PyError Replica :=
  if kvs.any (fun kv => !(["id", "address", "is_healthy", "is_syncing"].contains kv.1)) then
    .error (.typeError "Replica.init got an unexpected keyword argument")
  else
    match jsonGet kvs "id", jsonGet kvs "address",
          jsonGet kvs "is_healthy", jsonGet kvs "is_syncing" with
    | some i, some a, some h, some s => .ok ⟨i, a, h, s⟩
    | _, _, _, _ =>
      .error (.typeError "Replica.init missing required positional arguments")

/-- `[Replica(**r) for r in xs]`: each element must be a mapping. -/
def decodeReplicaList : List Json → Except PyError (List Replica)
  | [] => .ok []
  | (.obj kvs) :: rest => do
    let r ← decodeReplica kvs
    let rs ← decodeReplicaList rest
    pure (r :: rs)
  | _ :: _ => .error (.typeError "argument after ** must be a mapping")

/-- `models.Status` (models.py lines 532-537): note `write_replica` is typed
as a plain `Replica`, not an optional one. -/
structure Status where
  write_replica : Replica
  read_replicas : List Replica
  available : Json
  total : Json

/-- `models.ProxyStats` (models.py lines 541-544). -/
structure ProxyStats where
  active_proxies : Json
  targets : Json

/-- `models.DiscoveryStats` (models.py lines 548-551). -/
structure DiscoveryStats where
  registry : Status
  proxy : ProxyStats

/-- `data.get(k, {})` followed by use of the result as a dict: a present
non-dict value surfaces as an `AttributeError` at the next `.get` call. -/
def getDictD (c : JsonObj) (k : String) : Except PyError JsonObj :=
  match jsonGet c k with
  | none => .ok []
  | some (.obj o) => .ok o
  | some _ => .error (.attributeError "object has no attribute get")

/-- The response conversion inside `DiscoveryClient.get_shilp_stats`
(discovery_client.py lines 85-102), from the decoded response dict:
`registry = Status(write_replica=Replica(**registry_data.get("write_replica", {})),
read_replicas=[Replica(**r) for r in registry_data.get("read_replicas", [])],
available=..., total=...)`, then the `ProxyStats` section with defaulted
lookups. -/
def decode_shilp_stats (data : JsonObj) : Except PyError DiscoveryStats := do
  let registry_data ← getDictD data "registry"
  let wr_kvs ← match (jsonGet registry_data "write_replica").getD (.obj []) with
    | .obj o => Except.ok o
    | _ => Except.error (.typeError "argument after ** must be a mapping")
  let write_replica ← decodeReplica wr_kvs
  let rr_list ← match (jsonGet registry_data "read_replicas").getD (.arr []) with
    | .arr xs => Except.ok xs
    | _ => Except.error (.typeError "read_replicas is not a list")
  let read_replicas ← decodeReplicaList rr_list
  let available := (jsonGet registry_data "available").getD (.num 0)
  let total := (jsonGet registry_data "total").getD (.num 0)
  let proxy_data ← getDictD data "proxy"
  let active_proxies := (jsonGet proxy_data "active_proxies").getD (.num 0)
  let targets := (jsonGet proxy_data "targets").getD (.arr [])
  pure { registry := { write_replica, read_replicas, available, total },
         proxy := { active_proxies, targets } }

/-- `models.FileReaderOptions` (models.py lines 181-186). -/
structure FileReaderOptions where
  source : Option String := none
  mongo_filter : Option JsonObj := none
  skip : Int := 0
  limit : Int := 0

/-- A query-parameter value as handed to `requests`: either a plain string or
the `json.dumps` serialization of the mongo filter dict. -/
inductive ParamVal where
  | str (s : String)
  | jsonDumps (kvs : JsonObj)

/-- A GET request with query parameters, as issued by `read_document`. -/
structure GetRequest where
  method : String
  path : String
  params : List (String × ParamVal)

/-- The `source` query parameter added by `if options.source:` (client.py
lines 580-581) — Python truthiness: `None` and `""` add nothing. -/
def sourceParams : Option String → List (String × ParamVal)
  | some s => if s = "" then [] else [("source", ParamVal.str s)]
  | none => []

/-- The `mongo_filter` query parameter added by
`if options.source == "mongodb" and options.mongo_filter:` (client.py lines
586-588): only for source exactly `"mongodb"` and a truthy (non-`None`,
non-empty) filter dict, holding `json.dumps` of the filter. -/
def mongoFilterParams (source : Option String) (mf : Option JsonObj) :
    List (String × ParamVal) :=
  if source = some "mongodb" then
    match mf with
    | some m => if m.isEmpty then [] else [("mongo_filter", ParamVal.jsonDumps m)]
    | none => []
  else []

/-- `Client.read_document` (client.py lines 552-591), up to the transport
call.  Lines 568-577: empty path, negative limit and negative skip each raise
`ValueError` (in that order) before any request is issued; a missing options
argument defaults to `FileReaderOptions()`.  Lines 579-588 build the query
parameters: `path` always; `source` when truthy; `rows`/`skip` only when the
corresponding option is strictly positive (`str(...)` renders the integer);
`mongo_filter` only for a truthy filter with source `"mongodb"`. -/
def read_document (path : String) (opts : Option FileReaderOptions) :
    Except PyError GetRequest := do
  if path = "" then
    throw (.valueError "path cannot be empty")
  let options := opts.getD {}
  if options.limit < 0 then
    throw (.valueError "limit cannot be negative")
  if options.skip < 0 then
    throw (.valueError "skip cannot be negative")
  let params : List (String × ParamVal) := [("path", .str path)]
  let params := params ++ sourceParams options.source
  let params := params ++
    (if options.limit > 0 then [("rows", ParamVal.str (toString options.limit))] else [])
  let params := params ++
    (if options.skip > 0 then [("skip", ParamVal.str (toString options.skip))] else [])
  let params := params ++ mongoFilterParams options.source options.mongo_filter
  pure { method := "GET", path := "/api/data/v1/storage/read", params }

/-! ## Helper lemmas -/

theorem hasKey_append {α : Type} (xs ys : List (String × α)) (k : String) :
    hasKey (xs ++ ys) k = (hasKey xs k || hasKey ys k) := by
  simp [hasKey, List.any_append]

theorem hasKey_optEntry (k k' : String) (v : Option Json) :
    hasKey (optEntry k v) k' = (v.isSome && (k == k')) := by
  cases v <;> simp [hasKey, optEntry]

theorem bind_ne_ok {α β : Type} {e : Except PyError α} {f : α → Except PyError β}
    {b : β} (hf : ∀ a b', f a ≠ .ok b') : e >>= f ≠ .ok b := by
  intro h
  cases e with
  | error err => simp [Bind.bind, Except.bind] at h
  | ok a => exact hf a b (by simpa [Bind.bind, Except.bind] using h)

@[simp] theorem epure_eq {α : Type} (a : α) : (pure a : Except PyError α) = .ok a := rfl

@[simp] theorem ethrow_eq {α : Type} (e : PyError) :
    (throw e : Except PyError α) = .error e := rfl

@[simp] theorem ebind_error {α β : Type} (e : PyError) (f : α → Except PyError β) :
    (Except.error e : Except PyError α) >>= f = .error e := rfl

@[simp] theorem ebind_ok {α β : Type} (a : α) (f : α → Except PyError β) :
    (Except.ok a : Except PyError α) >>= f = f a := rfl

@[simp] theorem emap_error {α β : Type} (g : α → β) (e : PyError) :
    g <$> (Except.error e : Except PyError α) = .error e := rfl

@[simp] theorem emap_ok {α β : Type} (g : α → β) (a : α) :
    g <$> (Except.ok a : Except PyError α) = .ok (g a) := rfl

/-! ## Claim theorems -/

/-- C4: for every HTTP response, the transport exchange raises an `ApiError`
carrying the status code and raw body if and only if the status is ≥ 400, and
a sub-400 response with an empty body decodes to the empty mapping. -/
theorem transport_error_classification (resp : HttpResponse) :
    ((∃ s b, requestExchange resp = .error (.apiError s b)) ↔ 400 ≤ resp.status_code)
    ∧ (400 ≤ resp.status_code →
        requestExchange resp = .error (.apiError resp.status_code resp.text))
    ∧ (resp.status_code < 400 → resp.text = "" →
        requestExchange resp = .ok (.obj [])) := by
  by_cases h4 : 400 ≤ resp.status_code
  · refine ⟨⟨fun _ => h4, fun _ => ⟨resp.status_code, resp.text, by
      simp [requestExchange, h4]⟩⟩, fun _ => by simp [requestExchange, h4],
      fun hlt _ => absurd h4 (by omega)⟩
  · refine ⟨⟨?_, fun h => absurd h h4⟩, fun h => absurd h h4,
      fun _ hemp => by simp [requestExchange, h4, hemp]⟩
    rintro ⟨s, b, hsb⟩
    by_cases he : resp.text = ""
    · simp [requestExchange, h4, he] at hsb
    · cases hjb : resp.jsonBody <;> simp [requestExchange, h4, he, hjb] at hsb

/-- C4 witness: a 500 response with body "boom" raises the `ApiError`
carrying exactly that status and body. -/
theorem transport_error_classification_witness :
    requestExchange { status_code := 500, text := "boom", jsonBody := none } =
      .error (.apiError 500 "boom") :=
  (transport_error_classification
    { status_code := 500, text := "boom", jsonBody := none }).2.1 (by decide)

/-- C5 counterexample: the client sends a heartbeat with `lsn = 3` right after
one with `lsn = 5` for the same collection and replica — the second call is
sent to the server rather than failing client-side, refuting the claimed
pre-send `InvalidLsnError`. -/
theorem heartbeat_lower_lsn_still_sent :
    heartbeatTrace "docs" "replica-1" [5, 3] =
      [.send { method := "POST", path := "/api/oplog/v1/heartbeat",
               json_data := some (heartbeatBody "docs" "replica-1" 5) },
       .send { method := "POST", path := "/api/oplog/v1/heartbeat",
               json_data := some (heartbeatBody "docs" "replica-1" 3) }]
    ∧ (heartbeatTrace "docs" "replica-1" [5, 3]).all ClientAction.isSend = true :=
  ⟨rfl, rfl⟩

/-- C5 (amended): the client performs no per-replica LSN bookkeeping at all —
`update_replica_lsn` is a pure function of its arguments that unconditionally
sends the heartbeat body, whatever was acknowledged before; in particular
repeated calls with the same `lsn` send identical requests. -/
theorem heartbeat_stateless_always_sends (c r : String) (lsns : List Int) :
    heartbeatTrace c r lsns = lsns.map (fun lsn =>
      .send { method := "POST", path := "/api/oplog/v1/heartbeat",
              json_data := some (heartbeatBody c r lsn) }) := rfl

/-- C8: for both `register_shilp_service` and `unregister_shilp_service`, the
body's `is_read`/`is_write` flags are exactly the role mapping the spec
states: `SINGLE_NODE ↦ (true, true)`, `READ_REPLICA ↦ (true, false)`,
`WRITE_REPLICA ↦ (false, true)`. -/
theorem service_capability_flags (a addr sid : String) (rt : ReplicaType) :
    capabilityFlags rt = specCapabilityFlags rt
    ∧ (register_shilp_service a addr sid rt).json_data =
        some (shilpServiceBody a addr sid rt)
    ∧ (unregister_shilp_service a addr sid rt).json_data =
        some (shilpServiceBody a addr sid rt)
    ∧ shilpServiceBody a addr sid rt =
        .obj [("account_id", .str a), ("address", .str addr), ("id", .str sid),
              ("is_read", .bool (specCapabilityFlags rt).1),
              ("is_write", .bool (specCapabilityFlags rt).2)] := by
  cases rt <;> exact ⟨rfl, rfl, rfl, rfl⟩

/-- C2: on a `FilterExpression` with a non-empty attribute, `validate`
succeeds iff `values` is non-empty when the operator is a set operator (IN /
NOT_IN), and iff `value` is present for every other operator; every failure is
the `ValueError` naming the violated invariant.  `validate` returns only a
status and no modified expression, so purity holds by construction. -/
theorem filter_validate_contract (f : FilterExpression) (hattr : f.attribute ≠ "") :
    ((f.op = .IN ∨ f.op = .NOT_IN) →
       ((f.validate = .ok () ↔ ∃ v vs, f.values = some (v :: vs))
        ∧ (∀ e, f.validate = .error e →
            e = .valueError "IN/NOT IN operations require at least one value")))
    ∧ (¬(f.op = .IN ∨ f.op = .NOT_IN) →
       ((f.validate = .ok () ↔ f.value ≠ none)
        ∧ (∀ e, f.validate = .error e →
            e = .valueError ("value cannot be None for operation " ++ f.op.pyName)))) := by
  unfold FilterExpression.validate
  rw [if_neg hattr]
  by_cases hop : f.op = .IN ∨ f.op = .NOT_IN
  · rw [if_pos hop]
    refine ⟨fun _ => ?_, fun h => absurd hop h⟩
    cases hv : f.values with
    | none => simp [hv]
    | some l => cases l <;> simp [hv]
  · rw [if_neg hop]
    refine ⟨fun h => absurd h hop, fun _ => ?_⟩
    cases hv : f.value <;> simp [hv]

/-- C2 witness: a well-formed EQUALS filter with a present value validates,
and an IN filter with an empty value-set fails with the set-operator error. -/
theorem filter_validate_contract_witness :
    ({ «attribute» := "status", op := .EQUALS, value := some (.str "active") } :
        FilterExpression).validate = .ok ()
    ∧ ({ «attribute» := "category", op := .IN, values := some [] } :
        FilterExpression).validate =
      .error (.valueError "IN/NOT IN operations require at least one value") := by
  constructor
  · exact ((filter_validate_contract
      { «attribute» := "status", op := .EQUALS, value := some (.str "active") }
      (by decide)).2 (by decide)).1.mpr (by simp)
  · cases hv : ({ «attribute» := "category", op := .IN, values := some [] } :
        FilterExpression).validate with
    | ok u =>
      exact absurd (((filter_validate_contract
        { «attribute» := "category", op := .IN, values := some [] }
        (by decide)).1 (by decide)).1.mp hv) (by simp)
    | error e =>
      rw [((filter_validate_contract
        { «attribute» := "category", op := .IN, values := some [] }
        (by decide)).1 (by decide)).2 e hv]

/-- C3: `to_dict` is a total function of the contents — an empty (or `None`)
filter/sort collection maps exactly to the empty wire object, a non-empty one
maps to the canonical `{"and": [...]}` / `{"sorts": [...]}` shape in element
order, and each filter entry always carries the `"value"` key, holding JSON
null (the absence marker) even when the operator is a set operator. -/
theorem compound_wire_form (cf : CompoundFilter) (cs : CompoundSort) :
    (cf.and_filters.getD [] = [] → cf.to_dict = .obj [])
    ∧ (∀ fs, cf.and_filters = some fs → fs ≠ [] →
        cf.to_dict = .obj [("and", .arr (fs.map (fun f => .obj (filterWireEntryKvs f))))])
    ∧ (∀ f : FilterExpression, hasKey (filterWireEntryKvs f) "value" = true)
    ∧ (∀ f : FilterExpression, (f.op = .IN ∨ f.op = .NOT_IN) → f.value = none →
        ("value", Json.null) ∈ filterWireEntryKvs f)
    ∧ (cs.sorts.getD [] = [] → cs.to_dict = .obj [])
    ∧ (∀ ss, cs.sorts = some ss → ss ≠ [] →
        cs.to_dict = .obj [("sorts", .arr (ss.map (fun s => .obj (sortWireEntryKvs s))))]) := by
  refine ⟨?_, ?_, ?_, ?_, ?_, ?_⟩
  · intro h
    cases hcf : cf.and_filters with
    | none => simp [CompoundFilter.to_dict, hcf]
    | some l => rw [hcf] at h; simp at h; simp [CompoundFilter.to_dict, hcf, h]
  · intro fs hcf hne
    cases fs with
    | nil => exact absurd rfl hne
    | cons f fs => simp [CompoundFilter.to_dict, hcf]
  · intro f
    simp [hasKey, filterWireEntryKvs]
  · intro f _ hv
    simp [filterWireEntryKvs, hv]
  · intro h
    cases hcs : cs.sorts with
    | none => simp [CompoundSort.to_dict, hcs]
    | some l => rw [hcs] at h; simp at h; simp [CompoundSort.to_dict, hcs, h]
  · intro ss hcs hne
    cases ss with
    | nil => exact absurd rfl hne
    | cons s ss => simp [CompoundSort.to_dict, hcs]

/-- C3 witness: the default (empty) compound filter and sort both serialize to
the empty wire object, and a one-element IN filter with no scalar value still
carries the `"value"` key holding null. -/
theorem compound_wire_form_witness :
    CompoundFilter.to_dict {} = .obj []
    ∧ CompoundSort.to_dict {} = .obj []
    ∧ ("value", Json.null) ∈
        filterWireEntryKvs { «attribute» := "category", op := .IN,
                             values := some [.str "tech"] } := by
  refine ⟨?_, ?_, ?_⟩
  · exact (compound_wire_form {} {}).1 rfl
  · exact (compound_wire_form {} {}).2.2.2.2.1 rfl
  · exact (compound_wire_form {} {}).2.2.2.1
      { «attribute» := "category", op := .IN, values := some [.str "tech"] }
      (Or.inl rfl) rfl

/-- C7: `insert_record` includes the key for each optional field in the JSON
body exactly when the caller supplied a value (omission, not null, signals
absence), with the mandatory keys always present — but `add_collection` never
reaches the transport at all: line 240 of client.py reads `request.enable_pq`,
an attribute `AddCollectionRequest` does not define, so every call raises
`AttributeError` instead of sending the body it just built. -/
theorem optional_field_omission (req : InsertRecordRequest) (areq : AddCollectionRequest) :
    (∃ kvs, (insert_record req).json_data = some (.obj kvs)
      ∧ hasKey kvs "collection" = true
      ∧ hasKey kvs "record" = true
      ∧ hasKey kvs "expiry" = req.expiry.isSome
      ∧ hasKey kvs "id" = req.id.isSome
      ∧ hasKey kvs "metadata_fields" = req.metadata_fields.isSome
      ∧ hasKey kvs "embedding_provider" = req.embedding_provider.isSome
      ∧ hasKey kvs "fields" = req.fields.isSome
      ∧ hasKey kvs "keyword_fields" = req.keyword_fields.isSome
      ∧ hasKey kvs "model" = req.model.isSome)
    ∧ add_collection areq =
        .error (.attributeError "AddCollectionRequest object has no attribute enable_pq") := by
  refine ⟨⟨_, rfl, ?_, ?_, ?_, ?_, ?_, ?_, ?_, ?_, ?_⟩, rfl⟩ <;>
    simp only [insert_record, hasKey_append, hasKey_optEntry] <;>
    simp [hasKey, Option.isSome_map]

theorem hasKey_cons {α : Type} (p : String × α) (rest : List (String × α)) (k : String) :
    hasKey (p :: rest) k = ((p.1 == k) || hasKey rest k) := by
  simp [hasKey]

theorem hasKey_sourceParams (s : Option String) (k : String)
    (hk : ("source" == k) = false) : hasKey (sourceParams s) k = false := by
  rcases s with _ | s
  · rfl
  · by_cases h : s = "" <;> simp [sourceParams, h, hasKey, hk]

theorem hasKey_mongoFilterParams (s : Option String) (mf : Option JsonObj) (k : String)
    (hk : ("mongo_filter" == k) = false) :
    hasKey (mongoFilterParams s mf) k = false := by
  unfold mongoFilterParams
  by_cases h : s = some "mongodb"
  · rcases mf with _ | m
    · simp [h, hasKey]
    · by_cases hm : m.isEmpty <;> simp [h, hm, hasKey, hk]
  · simp [h, hasKey]

/-- C10: `read_document` raises a `ValueError` (with no request issued) iff
the path is empty or the limit or skip option is negative; on every sent
request the `rows` and `skip` query parameters are present exactly when the
corresponding option is strictly positive, and `path` is always present. -/
theorem read_document_contract (path : String) (opts : Option FileReaderOptions) :
    ((∃ m, read_document path opts = .error (.valueError m)) ↔
      (path = "" ∨ (opts.getD {}).limit < 0 ∨ (opts.getD {}).skip < 0))
    ∧ (∀ req, read_document path opts = .ok req →
        hasKey req.params "rows" = decide (0 < (opts.getD {}).limit)
        ∧ hasKey req.params "skip" = decide (0 < (opts.getD {}).skip)
        ∧ hasKey req.params "path" = true) := by
  constructor
  · constructor
    · rintro ⟨m, hm⟩
      by_cases hp : path = ""
      · exact Or.inl hp
      by_cases hl : (opts.getD {}).limit < 0
      · exact Or.inr (Or.inl hl)
      by_cases hs : (opts.getD {}).skip < 0
      · exact Or.inr (Or.inr hs)
      · exfalso
        simp [read_document, hp, hl, hs] at hm
    · rintro (hp | hl | hs)
      · exact ⟨"path cannot be empty", by simp [read_document, hp]⟩
      · by_cases hp : path = ""
        · exact ⟨"path cannot be empty", by simp [read_document, hp]⟩
        · exact ⟨"limit cannot be negative", by simp [read_document, hp, hl]⟩
      · by_cases hp : path = ""
        · exact ⟨"path cannot be empty", by simp [read_document, hp]⟩
        by_cases hl : (opts.getD {}).limit < 0
        · exact ⟨"limit cannot be negative", by simp [read_document, hp, hl]⟩
        · exact ⟨"skip cannot be negative", by simp [read_document, hp, hl, hs]⟩
  · intro req hreq
    by_cases hp : path = ""
    · simp [read_document, hp] at hreq
    by_cases hl : (opts.getD {}).limit < 0
    · simp [read_document, hp, hl] at hreq
    by_cases hs : (opts.getD {}).skip < 0
    · simp [read_document, hp, hl, hs] at hreq
    have hreq' :
        req =
          { method := "GET", path := "/api/data/v1/storage/read",
            params :=
              ("path", ParamVal.str path) ::
                (sourceParams (opts.getD {}).source ++
                  ((if 0 < (opts.getD {}).limit then
                      [("rows", ParamVal.str (toString (opts.getD {}).limit))] else []) ++
                    ((if 0 < (opts.getD {}).skip then
                        [("skip", ParamVal.str (toString (opts.getD {}).skip))] else []) ++
                      mongoFilterParams (opts.getD {}).source (opts.getD {}).mongo_filter))) } := by
      have h := hreq
      simp [read_document, hp, hl, hs] at h
      exact h.symm
    subst hreq'
    refine ⟨?_, ?_, ?_⟩ <;>
      simp only [hasKey_cons, hasKey_append] <;>
      rw [hasKey_sourceParams _ _ (by decide), hasKey_mongoFilterParams _ _ _ (by decide)] <;>
      by_cases h1 : (0:Int) < (opts.getD {}).limit <;>
      by_cases h2 : (0:Int) < (opts.getD {}).skip <;>
      simp [hasKey, h1, h2]

/-- C10 witness: a valid path with `limit = 10, skip = 0` sends a request
whose parameters carry `rows` but not `skip`. -/
theorem read_document_contract_witness :
    hasKey [("path", ParamVal.str "/some/path"), ("rows", ParamVal.str "10")] "rows" = true
    ∧ hasKey [("path", ParamVal.str "/some/path"), ("rows", ParamVal.str "10")] "skip" = false := by
  have h := (read_document_contract "/some/path" (some { limit := 10 })).2
    { method := "GET", path := "/api/data/v1/storage/read",
      params := [("path", ParamVal.str "/some/path"), ("rows", ParamVal.str "10")] } rfl
  exact ⟨h.1, h.2.1⟩

/-- C1: the `SearchRequest` dataclass defines no `vector_query` field, yet
`Client.search_data` reads `request.vector_query`, so (1) a request with a
non-empty collection and non-empty query raises `AttributeError` at client.py
line 511 instead of being sent; (2) the empty-collection check does raise the
documented `ValueError`; (3) with an empty query the short-circuit at line 492
reaches `request.vector_query` and raises `AttributeError` instead of the
documented `ValueError`; (4) only when a caller has set the attribute
dynamically does the call validate and send as specified. -/
theorem search_data_vector_query_bug :
    search_data { collection := "docs", query := "hello" } =
      .error (.attributeError "SearchRequest object has no attribute vector_query")
    ∧ search_data { collection := "", query := "" } =
      .error (.valueError "collection name cannot be empty")
    ∧ search_data { collection := "docs", query := "" } =
      .error (.attributeError "SearchRequest object has no attribute vector_query")
    ∧ (∀ vq : Option Json,
        search_data { collection := "docs", query := "hello", vector_query_attr := some vq } =
          .ok { method := "POST", path := "/api/data/v1/search",
                json_data := some (.obj ([("collection", .str "docs"), ("query", .str "hello")]
                  ++ optEntry "vector_query" vq)) }) :=
  ⟨rfl, rfl, rfl, fun _ => rfl⟩

theorem bind_always_error {α β : Type} {e : Except PyError α}
    {f : α → Except PyError β} (hf : ∀ a, ∃ err, f a = .error err) :
    ∃ err, e >>= f = .error err := by
  cases e with
  | error err => exact ⟨err, rfl⟩
  | ok a => simpa [Bind.bind, Except.bind] using hf a

/-- C6: the per-item decode inside `list_collections` can never succeed — the
`Collection(...)` call passes `is_pq_enabled=`, a parameter the `Collection`
dataclass does not accept — and a well-shaped item that merely omits the
optional `storage_type` key fails even earlier, because the fallback default
`0` is not a valid `StorageBackendType`; the metadata-support decode does
reject an unrecognized enum integer with the `ValueError`. -/
theorem list_collections_decode_bug :
    (∀ c : JsonObj, ∃ e, decodeCollectionItem c = .error e)
    ∧ decodeCollectionItem
        [("name", .str "docs"), ("is_loaded", .bool true),
         ("fields", .arr []), ("searchable_fields", .arr [])] =
      .error (.valueError "0 is not a valid StorageBackendType")
    ∧ decodeMetadataSupportInfo
        [("support_metadata", .bool true), ("name", .str "file"),
         ("type", .num 3), ("is_default", .bool true)] =
      .error (.valueError "3 is not a valid StorageBackendType") := by
  refine ⟨?_, rfl, rfl⟩
  intro c
  unfold decodeCollectionItem
  apply bind_always_error; intro _
  apply bind_always_error; intro _
  apply bind_always_error; intro _
  apply bind_always_error; intro _
  apply bind_always_error; intro _
  apply bind_always_error; intro _
  exact ⟨_, rfl⟩

/-- A well-shaped stats response whose registry carries a write replica. -/
def statsRespFull : JsonObj :=
  [("registry", .obj
     [("write_replica", .obj
        [("id", .str "w1"), ("address", .str "10.0.0.1:3000"),
         ("is_healthy", .bool true), ("is_syncing", .bool false)]),
      ("read_replicas", .arr
        [.obj [("id", .str "r1"), ("address", .str "10.0.0.2:3000"),
               ("is_healthy", .bool true), ("is_syncing", .bool false)]]),
      ("available", .num 2), ("total", .num 2)]),
   ("proxy", .obj [("active_proxies", .num 1),
                   ("targets", .arr [.str "10.0.0.1:3000", .str "10.0.0.2:3000"])])]

/-- A well-shaped stats response in which `write_replica` is absent — the
registry snapshot the spec says must still decode. -/
def statsRespNoWrite : JsonObj :=
  [("registry", .obj
     [("read_replicas", .arr
        [.obj [("id", .str "r1"), ("address", .str "10.0.0.2:3000"),
               ("is_healthy", .bool true), ("is_syncing", .bool false)]]),
      ("available", .num 1), ("total", .num 1)]),
   ("proxy", .obj [("active_proxies", .num 1),
                   ("targets", .arr [.str "10.0.0.2:3000"])])]

/-- C9: `get_shilp_stats` decodes a well-shaped response with a present
`write_replica` field-by-field into the registry `Status` (write replica, read
replicas in order, available/total counts) and `ProxyStats` — but on a
registry snapshot with `write_replica` absent, `Replica(**{})` raises
`TypeError` (the dataclass has four required parameters and no defaults), so
the absent/unset case the spec requires does NOT decode. -/
theorem get_shilp_stats_write_replica_bug :
    decode_shilp_stats statsRespFull =
      .ok { registry :=
              { write_replica :=
                  { id := .str "w1", address := .str "10.0.0.1:3000",
                    is_healthy := .bool true, is_syncing := .bool false },
                read_replicas :=
                  [{ id := .str "r1", address := .str "10.0.0.2:3000",
                     is_healthy := .bool true, is_syncing := .bool false }],
                available := .num 2, total := .num 2 },
            proxy := { active_proxies := .num 1,
                       targets := .arr [.str "10.0.0.1:3000", .str "10.0.0.2:3000"] } }
    ∧ decode_shilp_stats statsRespNoWrite =
        .error (.typeError "Replica.init missing required positional arguments") :=
  ⟨rfl, rfl⟩

end ShilpSdk
